import Mathlib

/-
  Verification of the epoch-boundary settlement engine:
  * the governance proposal execution coordinator
    (apps/src/lib/node/ledger/shell/governance.rs), and
  * the validator-set-update vote-extension validator
    (crates/ethereum_bridge/src/protocol/validation/validator_set_update.rs).

  The embedding mirrors the source code.  External collaborators (the
  key-value storage reads, the tally engine `compute_tally` composed with
  `get_proposal_votes`, the WASM VM `protocol::apply_tx`, and the
  cryptographic signature check `ext.verify`) are modelled as oracle
  fields/parameters, since their implementations live outside the two
  source files; every branch and effect of the two functions themselves is
  reproduced faithfully.
-/

namespace Spec2Proof

/-! ## Governance data model (governance.rs) -/

/-- TallyResult from anoma::types::governance: closed tri-state outcome. -/
inductive TallyResult
  | Passed
  | Rejected
  | Unknown
deriving DecidableEq, Repr

/-- Addresses: the governance escrow address (`gov_address`), the treasury
address (`treasury_address`), the native token address (`xan`, aka m1t),
and arbitrary other account addresses (e.g. proposal authors). -/
inductive Address
  | gov
  | treasury
  | xan
  | addr (n : Nat)
deriving DecidableEq, Repr

/-- ProposalEvent::new(event_type, tally_result, id, has_code, accepted),
as pushed onto response.events. -/
structure ProposalEvent where
  event_type : String
  tally_result : TallyResult
  proposal_id : Nat
  has_code : Bool
  accepted : Bool
deriving DecidableEq, Repr

/-- EventType::Proposal.to_string(): a fixed string, the same for every
emitted proposal event. -/
def proposalEventType : String := "proposal"

/-- The shell Error variant produced by execute_governance_proposals. -/
inductive GovError
  | BadProposal (id : Nat) (reason : String)
deriving DecidableEq, Repr

/-- ProposalsResult: the two ordered id sequences accumulated by the pass. -/
structure ProposalsResult where
  passed : List Nat
  rejected : List Nat
deriving DecidableEq, Repr

/-- The parts of the Shell that execute_governance_proposals touches.
`funds`, `start_epoch`, `author`, `code` model the storage reads keyed by
proposal id (None = key absent or undecodable, exactly the cases the
source maps to BadProposal / no code).  `tally` models
compute_tally(storage, start_epoch, get_proposal_votes(storage,
start_epoch, id)) as a function of (start_epoch, id).  `apply_tx` models
protocol::apply_tx on the transaction built from (code, encode(id)):
`some b` is Ok(tx_result) with tx_result.is_accepted() = b, `none` is
Err(_). -/
structure Shell where
  proposal_data : List Nat
  funds : Nat → Option Nat
  start_epoch : Nat → Option Nat
  author : Nat → Option Address
  code : Nat → Option (List Nat)
  tally : Nat → Nat → TallyResult
  apply_tx : List Nat → Nat → Option Bool

/-- The effects produced by processing one proposal id: the emitted event,
which result bucket the id joins (true = passed), the funds destination
address, the transferred amount, the nested write-log action
(`some true` = commit_tx, `some false` = drop_tx, `none` = no nested
transaction ran), and whether the pending-execution marker was
written-then-deleted. -/
structure Step where
  event : ProposalEvent
  inPassed : Bool
  dest : Address
  funds : Nat
  wlog : Option Bool
  marker : Bool
deriving DecidableEq, Repr

/-- Journal of the externally visible side effects of a pass: events pushed
onto the FinalizeBlock response, token transfers
(token, amount, source, destination) applied to storage, ids whose nested
transaction was committed resp. dropped, and ids for which the
pending-execution marker was written and deleted. -/
structure GovOut where
  events : List ProposalEvent
  transfers : List (Address × Nat × Address × Address)
  committed : List Nat
  dropped : List Nat
  markers : List Nat
deriving DecidableEq, Repr

def emptyOut : GovOut := ⟨[], [], [], [], []⟩

def emptyPr : ProposalsResult := ⟨[], []⟩

/-- One iteration of the per-proposal loop body of
execute_governance_proposals, up to (and including) choosing the transfer
destination; mirrors governance.rs lines 41-186. -/
def execStep (sh : Shell) (id : Nat) : Except GovError Step :=
  match sh.funds id with
  | none => .error (.BadProposal id "Invalid proposal funds.")
  | some f =>
    match sh.start_epoch id with
    | none => .error (.BadProposal id "Invalid proposal start_epoch.")
    | some e =>
      match sh.tally e id with
      | .Passed =>
        match sh.author id with
        | none => .error (.BadProposal id "Invalid proposal author.")
        | some a =>
          match sh.code id with
          | some c =>
            match sh.apply_tx c id with
            | some true =>
              .ok ⟨⟨proposalEventType, .Passed, id, true, true⟩,
                   true, a, f, some true, true⟩
            | some false =>
              .ok ⟨⟨proposalEventType, .Passed, id, true, false⟩,
                   false, .treasury, f, some false, true⟩
            | none =>
              .ok ⟨⟨proposalEventType, .Passed, id, true, false⟩,
                   false, .treasury, f, some false, true⟩
          | none =>
            .ok ⟨⟨proposalEventType, .Passed, id, false, false⟩,
                 true, a, f, none, false⟩
      | .Rejected =>
        .ok ⟨⟨proposalEventType, .Rejected, id, false, false⟩,
             false, .treasury, f, none, false⟩
      | .Unknown =>
        .ok ⟨⟨proposalEventType, .Rejected, id, false, false⟩,
             false, .treasury, f, none, false⟩

/-- Append the effects of one successfully processed proposal to the
journal: the event push, the m1t transfer from the governance escrow to
the chosen destination, and the write-log / marker bookkeeping. -/
def applyOut (out : GovOut) (id : Nat) (st : Step) : GovOut :=
  { events := out.events ++ [st.event]
    transfers := out.transfers ++ [(Address.xan, st.funds, Address.gov, st.dest)]
    committed := out.committed ++ (if st.wlog = some true then [id] else [])
    dropped := out.dropped ++ (if st.wlog = some false then [id] else [])
    markers := out.markers ++ (if st.marker then [id] else []) }

/-- Append the id to the bucket chosen by the step. -/
def applyPr (pr : ProposalsResult) (id : Nat) (st : Step) : ProposalsResult :=
  if st.inPassed then { pr with passed := pr.passed ++ [id] }
  else { pr with rejected := pr.rejected ++ [id] }

/-- The `for id in std::mem::take(..)` loop: process ids in order,
accumulating effects and the local ProposalsResult; a BadProposal error
short-circuits via `?`, keeping the effects already journalled but
discarding the local ProposalsResult. -/
def execLoop (sh : Shell) :
    List Nat → GovOut → ProposalsResult →
    GovOut × Except GovError ProposalsResult
  | [], out, pr => (out, .ok pr)
  | id :: rest, out, pr =>
    match execStep sh id with
    | .error e => (out, .error e)
    | .ok st => execLoop sh rest (applyOut out id st) (applyPr pr id st)

/-- execute_governance_proposals(shell, new_epoch, response).
Returns the shell after the call (its pending set is drained by
std::mem::take whenever new_epoch holds, even if the pass later errors),
the journal of effects applied to `response` and storage, and the
Result of the function. -/
def execute_governance_proposals (sh : Shell) (new_epoch : Bool) :
    Shell × GovOut × Except GovError ProposalsResult :=
  if !new_epoch then (sh, emptyOut, .ok emptyPr)
  else
    let r := execLoop sh sh.proposal_data emptyOut emptyPr
    ({ sh with proposal_data := [] }, r.1, r.2)

/-! ## Validator-set-update vote extension validation
    (validator_set_update.rs) -/

/-- EthAddrBook: the pair of Ethereum addresses (hot key, cold key) of a
validator; Ethereum addresses are modelled as Nat. -/
structure EthAddrBook where
  hot_key_addr : Nat
  cold_key_addr : Nat
deriving DecidableEq, Repr

/-- validator_set_update::Vext: the signed-over payload.  voting_powers is
the VotingPowersMap, a map from EthAddrBook to VotingPower, modelled as an
association list (the map invariant is key uniqueness); validator_addr is
the Namada address of the signer (modelled as Nat); signing_epoch is the
epoch the extension attests from. -/
structure Vext where
  voting_powers : List (EthAddrBook × Nat)
  validator_addr : Nat
  signing_epoch : Nat
deriving DecidableEq, Repr

/-- validator_set_update::SignedVext: the payload together with its
signature (modelled as Nat). -/
structure SignedVext where
  data : Vext
  sig : Nat
deriving DecidableEq, Repr

/-- VoteExtensionError: one variant per validation-step failure. -/
inductive VoteExtensionError
  | UnexpectedBlockHeight
  | UnexpectedEpoch
  | ValsetUpdProofAvailable
  | ValidatorMissingFromExtension
  | DivergesFromStorage
  | ExtraValidatorsInExtension
  | PubKeyNotInStorage
  | VerifySigFailed
deriving DecidableEq, Repr

/-- The parts of WlStorage that validate_valset_upd_vext reads:
last_block (None at genesis), the valset-update-proof-seen marker per
epoch, the consensus validator Ethereum address books with Namada address
and voting power per epoch (get_consensus_eth_addresses, in its stable
iteration order), and the Ethereum hot key of a validator at an epoch
(read_validator_eth_hot_key; keys modelled as Nat). -/
structure WlStorage where
  last_block : Option Nat
  valset_upd_seen : Nat → Bool
  consensus_eth_addresses : Nat → List (EthAddrBook × Nat × Nat)
  eth_hot_key : Nat → Nat → Option Nat

/-- VotingPowersMap.get: association-list lookup. -/
def vpGet : List (EthAddrBook × Nat) → EthAddrBook → Option Nat
  | [], _ => none
  | (k, v) :: rest, key => if k = key then some v else vpGet rest key

/-- The per-entry loop of validate_valset_upd_vext over the consensus
validator set of signing_epoch.next(): each snapshot entry must appear in
the extension map with exactly the snapshot power; the accumulator
counts matched snapshot entries (no_local_consensus_eth_addresses). -/
def checkVotingPowersAux (vp : List (EthAddrBook × Nat)) :
    List (EthAddrBook × Nat × Nat) → Nat → Except VoteExtensionError Nat
  | [], n => .ok n
  | (book, _addr, power) :: rest, n =>
    match vpGet vp book with
    | none => .error .ValidatorMissingFromExtension
    | some extPower =>
      if power ≠ extPower then .error .DivergesFromStorage
      else checkVotingPowersAux vp rest (n + 1)

/-- validate_valset_upd_vext(wl_storage, ext, last_epoch).  `verify`
models the cryptographic check ext.verify(&pk) as a pure oracle of the
resolved public key, the signed-over payload and the signature
(true = Ok, false = the error mapped to VerifySigFailed). -/
def validate_valset_upd_vext (verify : Nat → Vext → Nat → Bool)
    (wl : WlStorage) (ext : SignedVext) (last_epoch : Nat) :
    Except VoteExtensionError Unit :=
  if wl.last_block.isNone then
    .error .UnexpectedBlockHeight
  else if ext.data.signing_epoch > last_epoch then
    .error .UnexpectedEpoch
  else if wl.valset_upd_seen (ext.data.signing_epoch + 1) then
    .error .ValsetUpdProofAvailable
  else
    match checkVotingPowersAux ext.data.voting_powers
        (wl.consensus_eth_addresses (ext.data.signing_epoch + 1)) 0 with
    | .error e => .error e
    | .ok n =>
      if n ≠ ext.data.voting_powers.length then
        .error .ExtraValidatorsInExtension
      else
        match wl.eth_hot_key ext.data.validator_addr ext.data.signing_epoch with
        | none => .error .PubKeyNotInStorage
        | some pk =>
          if verify pk ext.data ext.sig then .ok ()
          else .error .VerifySigFailed

/-! ## Helper lemmas -/

/-- Running the loop on an appended list first runs the prefix; if the
prefix succeeds, the loop continues on the suffix from the accumulated
state. -/
theorem execLoop_append (sh : Shell) (l1 l2 : List Nat) (out : GovOut)
    (pr : ProposalsResult) (out1 : GovOut) (pr1 : ProposalsResult)
    (h : execLoop sh l1 out pr = (out1, .ok pr1)) :
    execLoop sh (l1 ++ l2) out pr = execLoop sh l2 out1 pr1 := by
  induction l1 generalizing out pr with
  | nil =>
    simp only [execLoop, Prod.mk.injEq, Except.ok.injEq] at h
    obtain ⟨h1, h2⟩ := h
    subst h1; subst h2
    simp
  | cons a l ih =>
    simp only [execLoop, List.cons_append] at h ⊢
    cases hstep : execStep sh a with
    | error e =>
      rw [hstep] at h
      simp at h
    | ok st =>
      rw [hstep] at h
      exact ih _ _ h

/-- Processing a single pending proposal id whose step succeeds. -/
theorem execute_singleton (sh : Shell) (id : Nat) (st : Step)
    (hd : sh.proposal_data = [id]) (hstep : execStep sh id = .ok st) :
    execute_governance_proposals sh true =
      ({ sh with proposal_data := [] }, applyOut emptyOut id st,
       .ok (applyPr emptyPr id st)) := by
  simp [execute_governance_proposals, hd, execLoop, hstep]

/-! ## Claim C2 -/

/-- Claim C2: at an epoch boundary, a proposal whose tally is Passed and
whose code is present but is either rejected by its acceptance predicate
(apply_tx returns Ok with is_accepted() = false) or raises a runtime
error (apply_tx returns Err) is recorded in the `rejected` sequence, its
funds are transferred from the governance escrow to the treasury, the
writes of the nested transaction are dropped, and the emitted ProposalEvent
has tally_result Passed, has_code = true, accepted = false; the runtime
error is absorbed: the pass still returns Ok. -/
theorem c2_passed_code_rejected_or_error
    (sh : Shell) (id f e : Nat) (a : Address) (c : List Nat)
    (hf : sh.funds id = some f) (hs : sh.start_epoch id = some e)
    (ht : sh.tally e id = .Passed) (ha : sh.author id = some a)
    (hc : sh.code id = some c)
    (hx : sh.apply_tx c id = some false ∨ sh.apply_tx c id = none)
    (hd : sh.proposal_data = [id]) :
    execStep sh id =
      .ok ⟨⟨proposalEventType, .Passed, id, true, false⟩,
           false, .treasury, f, some false, true⟩ ∧
    execute_governance_proposals sh true =
      ({ sh with proposal_data := [] },
       { events := [⟨proposalEventType, .Passed, id, true, false⟩]
         transfers := [(Address.xan, f, Address.gov, Address.treasury)]
         committed := [], dropped := [id], markers := [id] },
       .ok ⟨[], [id]⟩) := by
  have hstep : execStep sh id =
      .ok ⟨⟨proposalEventType, .Passed, id, true, false⟩,
           false, .treasury, f, some false, true⟩ := by
    rcases hx with hx | hx <;> simp [execStep, hf, hs, ht, ha, hc, hx]
  refine ⟨hstep, ?_⟩
  rw [execute_singleton sh id _ hd hstep]
  simp [applyOut, applyPr, emptyOut, emptyPr]

/-- Concrete input for the C2 witness: one pending proposal, tally
Passed, code present, apply_tx raising a runtime error. -/
def shC2 : Shell :=
  { proposal_data := [1]
    funds := fun i => if i = 1 then some 5 else none
    start_epoch := fun i => if i = 1 then some 0 else none
    author := fun i => if i = 1 then some (.addr 7) else none
    code := fun i => if i = 1 then some [0] else none
    tally := fun _ _ => .Passed
    apply_tx := fun _ _ => none }

/-- Witness for C2 at a concrete input. -/
theorem c2_witness :
    execStep shC2 1 =
      .ok ⟨⟨proposalEventType, .Passed, 1, true, false⟩,
           false, .treasury, 5, some false, true⟩ ∧
    execute_governance_proposals shC2 true =
      ({ shC2 with proposal_data := [] },
       { events := [⟨proposalEventType, .Passed, 1, true, false⟩]
         transfers := [(Address.xan, 5, Address.gov, Address.treasury)]
         committed := [], dropped := [1], markers := [1] },
       .ok ⟨[], [1]⟩) :=
  c2_passed_code_rejected_or_error shC2 1 5 0 (.addr 7) [0]
    rfl rfl rfl rfl rfl (Or.inr rfl) rfl

/-! ## Claim C4 -/

/-- Claim C4: at an epoch boundary, a proposal whose tally is Passed is
recorded in `passed` with funds transferred to the stored author both
when it has no code (event has_code = false, accepted = false, no nested
transaction, so no commit) and when the execution of its code is accepted
(event has_code = true, accepted = true, nested writes committed);
the nested writes are committed exactly in the accepted-code case. -/
theorem c4_passed_no_code_or_accepted
    (sh : Shell) (id f e : Nat) (a : Address)
    (hf : sh.funds id = some f) (hs : sh.start_epoch id = some e)
    (ht : sh.tally e id = .Passed) (ha : sh.author id = some a)
    (hd : sh.proposal_data = [id]) :
    (sh.code id = none →
      execStep sh id =
        .ok ⟨⟨proposalEventType, .Passed, id, false, false⟩,
             true, a, f, none, false⟩ ∧
      execute_governance_proposals sh true =
        ({ sh with proposal_data := [] },
         { events := [⟨proposalEventType, .Passed, id, false, false⟩]
           transfers := [(Address.xan, f, Address.gov, a)]
           committed := [], dropped := [], markers := [] },
         .ok ⟨[id], []⟩)) ∧
    (∀ c, sh.code id = some c → sh.apply_tx c id = some true →
      execStep sh id =
        .ok ⟨⟨proposalEventType, .Passed, id, true, true⟩,
             true, a, f, some true, true⟩ ∧
      execute_governance_proposals sh true =
        ({ sh with proposal_data := [] },
         { events := [⟨proposalEventType, .Passed, id, true, true⟩]
           transfers := [(Address.xan, f, Address.gov, a)]
           committed := [id], dropped := [], markers := [id] },
         .ok ⟨[id], []⟩)) := by
  constructor
  · intro hc
    have hstep : execStep sh id =
        .ok ⟨⟨proposalEventType, .Passed, id, false, false⟩,
             true, a, f, none, false⟩ := by
      simp [execStep, hf, hs, ht, ha, hc]
    refine ⟨hstep, ?_⟩
    rw [execute_singleton sh id _ hd hstep]
    simp [applyOut, applyPr, emptyOut, emptyPr]
  · intro c hc hx
    have hstep : execStep sh id =
        .ok ⟨⟨proposalEventType, .Passed, id, true, true⟩,
             true, a, f, some true, true⟩ := by
      simp [execStep, hf, hs, ht, ha, hc, hx]
    refine ⟨hstep, ?_⟩
    rw [execute_singleton sh id _ hd hstep]
    simp [applyOut, applyPr, emptyOut, emptyPr]

/-- Concrete input for the C4 witness: one pending proposal, tally
Passed, code present and accepted by the VM. -/
def shC4 : Shell :=
  { proposal_data := [2]
    funds := fun i => if i = 2 then some 9 else none
    start_epoch := fun i => if i = 2 then some 1 else none
    author := fun i => if i = 2 then some (.addr 4) else none
    code := fun i => if i = 2 then some [3] else none
    tally := fun _ _ => .Passed
    apply_tx := fun _ _ => some true }

/-- Witness for C4 at a concrete input (accepted-code case). -/
theorem c4_witness :
    execStep shC4 2 =
      .ok ⟨⟨proposalEventType, .Passed, 2, true, true⟩,
           true, .addr 4, 9, some true, true⟩ ∧
    execute_governance_proposals shC4 true =
      ({ shC4 with proposal_data := [] },
       { events := [⟨proposalEventType, .Passed, 2, true, true⟩]
         transfers := [(Address.xan, 9, Address.gov, Address.addr 4)]
         committed := [2], dropped := [], markers := [2] },
       .ok ⟨[2], []⟩) :=
  (c4_passed_no_code_or_accepted shC4 2 9 1 (.addr 4)
    rfl rfl rfl rfl rfl).2 [3] rfl rfl

/-! ## Claim C5 -/

/-- Claim C5: at an epoch boundary, a proposal whose tally is Rejected or
Unknown is recorded in the `rejected` sequence, no transaction is
dispatched (the step neither consults the proposal code nor the VM: it is
invariant under both oracles, runs no nested transaction and touches no
pending-execution marker), its funds are transferred from the governance
escrow to the treasury, and exactly one ProposalEvent is emitted for it,
with accepted = false. -/
theorem c5_rejected_or_unknown
    (sh : Shell) (id f e : Nat)
    (hf : sh.funds id = some f) (hs : sh.start_epoch id = some e)
    (ht : sh.tally e id = .Rejected ∨ sh.tally e id = .Unknown)
    (hd : sh.proposal_data = [id]) :
    execStep sh id =
      .ok ⟨⟨proposalEventType, .Rejected, id, false, false⟩,
           false, .treasury, f, none, false⟩ ∧
    (∀ code2 atx2,
      execStep { sh with code := code2, apply_tx := atx2 } id =
        execStep sh id) ∧
    execute_governance_proposals sh true =
      ({ sh with proposal_data := [] },
       { events := [⟨proposalEventType, .Rejected, id, false, false⟩]
         transfers := [(Address.xan, f, Address.gov, Address.treasury)]
         committed := [], dropped := [], markers := [] },
       .ok ⟨[], [id]⟩) := by
  have hstep : execStep sh id =
      .ok ⟨⟨proposalEventType, .Rejected, id, false, false⟩,
           false, .treasury, f, none, false⟩ := by
    rcases ht with ht | ht <;> simp [execStep, hf, hs, ht]
  refine ⟨hstep, ?_, ?_⟩
  · intro code2 atx2
    rw [hstep]
    rcases ht with ht | ht <;> simp [execStep, hf, hs, ht]
  · rw [execute_singleton sh id _ hd hstep]
    simp [applyOut, applyPr, emptyOut, emptyPr]

/-- Concrete input for the C5 witness: one pending proposal tallied
Unknown. -/
def shC5 : Shell :=
  { proposal_data := [3]
    funds := fun i => if i = 3 then some 2 else none
    start_epoch := fun i => if i = 3 then some 0 else none
    author := fun i => if i = 3 then some (.addr 8) else none
    code := fun i => if i = 3 then some [1] else none
    tally := fun _ _ => .Unknown
    apply_tx := fun _ _ => some true }

/-- Witness for C5 at a concrete input. -/
theorem c5_witness :
    execStep shC5 3 =
      .ok ⟨⟨proposalEventType, .Rejected, 3, false, false⟩,
           false, .treasury, 2, none, false⟩ ∧
    execStep { shC5 with code := fun _ => none, apply_tx := fun _ _ => none } 3 =
      execStep shC5 3 ∧
    execute_governance_proposals shC5 true =
      ({ shC5 with proposal_data := [] },
       { events := [⟨proposalEventType, .Rejected, 3, false, false⟩]
         transfers := [(Address.xan, 2, Address.gov, Address.treasury)]
         committed := [], dropped := [], markers := [] },
       .ok ⟨[], [3]⟩) :=
  ⟨(c5_rejected_or_unknown shC5 3 2 0 rfl rfl (Or.inr rfl) rfl).1,
   (c5_rejected_or_unknown shC5 3 2 0 rfl rfl (Or.inr rfl) rfl).2.1
     (fun _ => none) (fun _ _ => none),
   (c5_rejected_or_unknown shC5 3 2 0 rfl rfl (Or.inr rfl) rfl).2.2⟩

/-! ## Claim C6 -/

/-- Claim C6: if the stored funds value or the stored start_epoch value of
a pending proposal id is absent or malformed (the storage read yields
nothing), execute_governance_proposals returns Err(BadProposal(id, ..))
to the caller: the whole pass aborts, its output being exactly the
journal accumulated on the ids drained before the failing one, so no
later pending id is processed in that call. -/
theorem c6_bad_proposal_aborts
    (sh : Shell) (pre : List Nat) (id : Nat) (post : List Nat)
    (out1 : GovOut) (pr1 : ProposalsResult)
    (hd : sh.proposal_data = pre ++ id :: post)
    (hpre : execLoop sh pre emptyOut emptyPr = (out1, .ok pr1))
    (hbad : sh.funds id = none ∨
      (∃ f, sh.funds id = some f ∧ sh.start_epoch id = none)) :
    ∃ reason, execute_governance_proposals sh true =
      ({ sh with proposal_data := [] }, out1,
       .error (.BadProposal id reason)) := by
  have hstep : ∃ reason,
      execStep sh id = .error (.BadProposal id reason) := by
    rcases hbad with hbad | ⟨f, hf, hbad⟩
    · exact ⟨"Invalid proposal funds.", by simp [execStep, hbad]⟩
    · exact ⟨"Invalid proposal start_epoch.", by simp [execStep, hf, hbad]⟩
  obtain ⟨reason, hstep⟩ := hstep
  refine ⟨reason, ?_⟩
  simp only [execute_governance_proposals, Bool.not_true, Bool.false_eq_true,
    if_false, hd]
  rw [execLoop_append sh pre (id :: post) emptyOut emptyPr out1 pr1 hpre]
  simp [execLoop, hstep]

/-- Concrete input for the C6 witness: the second of three pending ids
has no stored start_epoch. -/
def shC6 : Shell :=
  { proposal_data := [1, 2, 3]
    funds := fun _ => some 4
    start_epoch := fun i => if i = 2 then none else some 0
    author := fun _ => some (.addr 9)
    code := fun _ => none
    tally := fun _ _ => .Rejected
    apply_tx := fun _ _ => some true }

/-- Witness for C6 at a concrete input. -/
theorem c6_witness :
    ∃ reason, execute_governance_proposals shC6 true =
      ({ shC6 with proposal_data := [] },
       { events := [⟨proposalEventType, .Rejected, 1, false, false⟩]
         transfers := [(Address.xan, 4, Address.gov, Address.treasury)]
         committed := [], dropped := [], markers := [] },
       .error (.BadProposal 2 reason)) :=
  c6_bad_proposal_aborts shC6 [1] 2 [3]
    { events := [⟨proposalEventType, .Rejected, 1, false, false⟩]
      transfers := [(Address.xan, 4, Address.gov, Address.treasury)]
      committed := [], dropped := [], markers := [] }
    ⟨[], [1]⟩ rfl rfl (Or.inr ⟨4, rfl, rfl⟩)

/-! ## Claim C8 -/

/-- A shell whose pending set is empty is unchanged by re-draining it. -/
theorem drain_empty (sh : Shell) (h : sh.proposal_data = []) :
    { sh with proposal_data := ([] : List Nat) } = sh := by
  cases sh
  simp_all

/-- Claim C8: with is_epoch_boundary false, execute_governance_proposals
is a no-op: the shell is untouched, no effect is journalled, and the
result is an empty ProposalsResult.  At an epoch boundary the pending set
is drained at the start of the call, so a second call on the resulting
shell finds an empty pending set and likewise returns an empty result
with no effects. -/
theorem c8_no_boundary_noop_and_idempotent
    (sh sh2 : Shell) (out : GovOut) (r : Except GovError ProposalsResult)
    (h : execute_governance_proposals sh true = (sh2, out, r)) :
    execute_governance_proposals sh false = (sh, emptyOut, .ok emptyPr) ∧
    sh2.proposal_data = [] ∧
    execute_governance_proposals sh2 true = (sh2, emptyOut, .ok emptyPr) := by
  have hsh2 : sh2 = { sh with proposal_data := ([] : List Nat) } := by
    have := congrArg Prod.fst h
    simpa [execute_governance_proposals] using this.symm
  have hempty : sh2.proposal_data = [] := by rw [hsh2]
  refine ⟨by simp [execute_governance_proposals], hempty, ?_⟩
  simp [execute_governance_proposals, hempty, execLoop, drain_empty sh2 hempty]

/-- Concrete input for the C8 witness. -/
def shC8 : Shell :=
  { proposal_data := [5]
    funds := fun _ => some 1
    start_epoch := fun _ => some 0
    author := fun _ => some (.addr 1)
    code := fun _ => none
    tally := fun _ _ => .Passed
    apply_tx := fun _ _ => some true }

/-- Witness for C8 at a concrete input. -/
theorem c8_witness :
    execute_governance_proposals shC8 false = (shC8, emptyOut, .ok emptyPr) ∧
    ({ shC8 with proposal_data := ([] : List Nat) } : Shell).proposal_data = [] ∧
    execute_governance_proposals { shC8 with proposal_data := ([] : List Nat) } true =
      ({ shC8 with proposal_data := ([] : List Nat) }, emptyOut, .ok emptyPr) :=
  c8_no_boundary_noop_and_idempotent shC8
    { shC8 with proposal_data := [] }
    { events := [⟨proposalEventType, .Passed, 5, false, false⟩]
      transfers := [(Address.xan, 1, Address.gov, Address.addr 1)]
      committed := [], dropped := [], markers := [] }
    (.ok ⟨[5], []⟩) rfl

/-! ## Claim C1 -/

/-- Concrete input for C1: one pending proposal tallied Unknown. -/
def shC1U : Shell :=
  { proposal_data := [1]
    funds := fun _ => some 3
    start_epoch := fun _ => some 0
    author := fun _ => some (.addr 2)
    code := fun _ => none
    tally := fun _ _ => .Unknown
    apply_tx := fun _ _ => some true }

/-- Concrete input for C1: the same shell, tallied Rejected. -/
def shC1R : Shell := { shC1U with tally := fun _ _ => .Rejected }

/-- Claim C1 counterexample: the claim asserts that the emitted
tally_result field of the ProposalEvent differs between a proposal tallied
Unknown and one tallied Rejected.  It does not: governance.rs builds the
event with TallyResult::Rejected in the merged Rejected | Unknown match
arm, so the two passes emit identical events (tally_result Rejected in
both), and the Unknown outcome is not observable from the event. -/
theorem c1_counterexample :
    shC1U.tally 0 1 = .Unknown ∧ shC1R.tally 0 1 = .Rejected ∧
    (execute_governance_proposals shC1U true).2.1.events =
      (execute_governance_proposals shC1R true).2.1.events ∧
    (execute_governance_proposals shC1U true).2.1.events.map
      ProposalEvent.tally_result = [.Rejected] := by
  refine ⟨rfl, rfl, ?_, ?_⟩ <;> rfl

/-- Claim C1 as amended: a proposal tallied Unknown is treated exactly as
one tallied Rejected in every respect, including the emitted event: the
step produced for the proposal is identical, and its event carries
tally_result Rejected (id in `rejected`, no code executed, funds to
treasury), so the Unknown outcome is not distinguishable from a Rejected
one through the emitted ProposalEvent. -/
theorem c1_unknown_treated_as_rejected
    (sh : Shell) (t2 : Nat → Nat → TallyResult) (id f e : Nat)
    (hf : sh.funds id = some f) (hs : sh.start_epoch id = some e)
    (h1 : sh.tally e id = .Unknown) (h2 : t2 e id = .Rejected) :
    execStep sh id = execStep { sh with tally := t2 } id ∧
    execStep sh id =
      .ok ⟨⟨proposalEventType, .Rejected, id, false, false⟩,
           false, .treasury, f, none, false⟩ := by
  have hu : execStep sh id =
      .ok ⟨⟨proposalEventType, .Rejected, id, false, false⟩,
           false, .treasury, f, none, false⟩ := by
    simp [execStep, hf, hs, h1]
  have hr : execStep { sh with tally := t2 } id =
      .ok ⟨⟨proposalEventType, .Rejected, id, false, false⟩,
           false, .treasury, f, none, false⟩ := by
    simp [execStep, hf, hs, h2]
  exact ⟨hu.trans hr.symm, hu⟩

/-- Witness for the amended C1 at a concrete input. -/
theorem c1_witness :
    execStep shC1U 1 = execStep { shC1U with tally := fun _ _ => .Rejected } 1 ∧
    execStep shC1U 1 =
      .ok ⟨⟨proposalEventType, .Rejected, 1, false, false⟩,
           false, .treasury, 3, none, false⟩ :=
  c1_unknown_treated_as_rejected shC1U (fun _ _ => .Rejected) 1 3 0
    rfl rfl rfl rfl

/-! ## Claim C10 -/

/-- Concrete input for C10: three pending ids; the second has no stored
funds value. -/
def shC10 : Shell :=
  { proposal_data := [1, 2, 3]
    funds := fun i => if i = 2 then none else some 4
    start_epoch := fun _ => some 0
    author := fun _ => some (.addr 9)
    code := fun _ => none
    tally := fun _ _ => .Rejected
    apply_tx := fun _ _ => some true }

/-- Claim C10 counterexample: the claim asserts that the result entries
produced for proposals processed before the failing one are not rolled
back.  They do not survive: the local ProposalsResult is discarded when
the error propagates with the `?` operator, and the caller receives only
Err(BadProposal(..)) — in particular not the Ok result that would hold
the entry recorded for proposal 1 — even though the event and
fund transfer of proposal 1 did persist. -/
theorem c10_counterexample :
    (execute_governance_proposals shC10 true).2.1.events =
      [⟨proposalEventType, .Rejected, 1, false, false⟩] ∧
    (execute_governance_proposals shC10 true).2.1.transfers =
      [(Address.xan, 4, Address.gov, Address.treasury)] ∧
    (execute_governance_proposals shC10 true).2.2 =
      .error (.BadProposal 2 "Invalid proposal funds.") ∧
    (execute_governance_proposals shC10 true).2.2 ≠
      .ok ⟨[], [1]⟩ := by
  refine ⟨rfl, rfl, rfl, ?_⟩
  intro h
  rw [show (execute_governance_proposals shC10 true).2.2 =
      .error (.BadProposal 2 "Invalid proposal funds.") from rfl] at h
  exact Except.noConfusion h

/-- Claim C10 as amended: when the stored funds value of a pending id is
missing, the pass errors there.  The pending-proposal set was already
drained by the swap-with-empty at the start of the call, so the ids after
the failing one are lost and never processed; the events, fund transfers,
committed and dropped nested writes of the proposals processed before the
failing one persist (the journal returned is exactly that of the prefix), so
the pass is not atomic across proposals on error; the result entries
accumulated before the failure, however, are discarded with the error:
the caller receives Err(BadProposal(..)) and no ProposalsResult. -/
theorem c10_error_not_atomic
    (sh : Shell) (pre : List Nat) (id : Nat) (post : List Nat)
    (out1 : GovOut) (pr1 : ProposalsResult)
    (hd : sh.proposal_data = pre ++ id :: post)
    (hpre : execLoop sh pre emptyOut emptyPr = (out1, .ok pr1))
    (hbad : sh.funds id = none) :
    (execute_governance_proposals sh true).1.proposal_data = [] ∧
    (execute_governance_proposals sh true).2.1 = out1 ∧
    (execute_governance_proposals sh true).2.2 =
      .error (.BadProposal id "Invalid proposal funds.") := by
  have hstep : execStep sh id =
      .error (.BadProposal id "Invalid proposal funds.") := by
    simp [execStep, hbad]
  have hrun : execute_governance_proposals sh true =
      ({ sh with proposal_data := [] }, out1,
       .error (.BadProposal id "Invalid proposal funds.")) := by
    simp only [execute_governance_proposals, Bool.not_true, Bool.false_eq_true,
      if_false, hd]
    rw [execLoop_append sh pre (id :: post) emptyOut emptyPr out1 pr1 hpre]
    simp [execLoop, hstep]
  rw [hrun]
  exact ⟨rfl, rfl, rfl⟩

/-- Witness for the amended C10 at a concrete input. -/
theorem c10_witness :
    (execute_governance_proposals shC10 true).1.proposal_data = [] ∧
    (execute_governance_proposals shC10 true).2.1 =
      { events := [⟨proposalEventType, .Rejected, 1, false, false⟩]
        transfers := [(Address.xan, 4, Address.gov, Address.treasury)]
        committed := [], dropped := [], markers := [] } ∧
    (execute_governance_proposals shC10 true).2.2 =
      .error (.BadProposal 2 "Invalid proposal funds.") :=
  c10_error_not_atomic shC10 [1] 2 [3]
    { events := [⟨proposalEventType, .Rejected, 1, false, false⟩]
      transfers := [(Address.xan, 4, Address.gov, Address.treasury)]
      committed := [], dropped := [], markers := [] }
    ⟨[], [1]⟩ rfl rfl rfl

/-! ## Helper lemmas for the voting-powers check -/

/-- A successful map lookup witnesses that the key is among the keys of
the map. -/
theorem vpGet_mem (vp : List (EthAddrBook × Nat)) (b : EthAddrBook) (p : Nat)
    (h : vpGet vp b = some p) : b ∈ vp.map (fun x => x.1) := by
  induction vp with
  | nil => simp [vpGet] at h
  | cons kv rest ih =>
    obtain ⟨k, v⟩ := kv
    by_cases hk : k = b
    · simp [hk]
    · simp only [vpGet, if_neg hk] at h
      simp [ih h]

/-- When every snapshot entry is found in the extension map with
exactly the snapshot power, the per-entry loop completes and counts every
snapshot entry. -/
theorem checkVotingPowersAux_all_matched (vp : List (EthAddrBook × Nat))
    (snap : List (EthAddrBook × Nat × Nat)) (n : Nat)
    (hall : ∀ b a p, (b, a, p) ∈ snap → vpGet vp b = some p) :
    checkVotingPowersAux vp snap n = .ok (n + snap.length) := by
  induction snap generalizing n with
  | nil => simp [checkVotingPowersAux]
  | cons entry rest ih =>
    obtain ⟨b, a, p⟩ := entry
    have hb : vpGet vp b = some p := hall b a p (by simp)
    have hrest : ∀ b a p, (b, a, p) ∈ rest → vpGet vp b = some p := by
      intro b2 a2 p2 hmem
      exact hall b2 a2 p2 (by simp [hmem])
    simp only [checkVotingPowersAux, hb]
    rw [if_neg (by simp)]
    rw [ih (n + 1) hrest]
    simp [List.length_cons]
    omega

/-- If the address books of the snapshot are distinct and each appears
among the keys of the extension map, the snapshot is no longer than the map. -/
theorem snapshot_length_le (vp : List (EthAddrBook × Nat))
    (snap : List (EthAddrBook × Nat × Nat))
    (hall : ∀ b a p, (b, a, p) ∈ snap → vpGet vp b = some p)
    (hnodup : (snap.map (fun x => x.1)).Nodup) :
    snap.length ≤ vp.length := by
  have hsub : snap.map (fun x => x.1) ⊆ vp.map (fun x => x.1) := by
    intro b hb
    obtain ⟨⟨b0, a0, p0⟩, hmem, hb0⟩ := List.mem_map.mp hb
    subst hb0
    exact vpGet_mem vp b0 p0 (hall b0 a0 p0 hmem)
  have := (List.subperm_of_subset hnodup hsub).length_le
  simpa using this

/-! ## Claim C3 -/

/-- Claim C3: under the genesis, epoch and proof-availability checks
passing, and with every consensus validator entry of epoch
signing_epoch.next() present in the voting_powers map of the extension with
exactly the snapshot power (distinct snapshot address books),
validate_valset_upd_vext fails with ExtraValidatorsInExtension exactly
when the map size of the extension exceeds the number of matched snapshot
entries — the per-entry loop matches every snapshot entry, and the
cardinality check rejects a strict superset. -/
theorem c3_extra_validators_iff (verify : Nat → Vext → Nat → Bool)
    (wl : WlStorage) (ext : SignedVext) (last_epoch : Nat)
    (hb : wl.last_block.isNone = false)
    (he : ¬ ext.data.signing_epoch > last_epoch)
    (hseen : wl.valset_upd_seen (ext.data.signing_epoch + 1) = false)
    (hall : ∀ b a p,
      (b, a, p) ∈ wl.consensus_eth_addresses (ext.data.signing_epoch + 1) →
      vpGet ext.data.voting_powers b = some p)
    (hnodup : ((wl.consensus_eth_addresses (ext.data.signing_epoch + 1)).map
      (fun x => x.1)).Nodup) :
    checkVotingPowersAux ext.data.voting_powers
      (wl.consensus_eth_addresses (ext.data.signing_epoch + 1)) 0 =
      .ok (wl.consensus_eth_addresses (ext.data.signing_epoch + 1)).length ∧
    (validate_valset_upd_vext verify wl ext last_epoch =
        .error .ExtraValidatorsInExtension ↔
      ext.data.voting_powers.length >
        (wl.consensus_eth_addresses (ext.data.signing_epoch + 1)).length) := by
  set snap := wl.consensus_eth_addresses (ext.data.signing_epoch + 1) with hsnap
  have hcount : checkVotingPowersAux ext.data.voting_powers snap 0 =
      .ok snap.length := by
    simpa using checkVotingPowersAux_all_matched ext.data.voting_powers snap 0 hall
  have hle : snap.length ≤ ext.data.voting_powers.length :=
    snapshot_length_le ext.data.voting_powers snap hall hnodup
  refine ⟨hcount, ?_⟩
  simp only [validate_valset_upd_vext, hb, Bool.false_eq_true, if_false,
    if_neg he, ← hsnap, hseen, hcount]
  by_cases hlen : snap.length = ext.data.voting_powers.length
  · rw [if_neg (by omega)]
    constructor
    · intro hcontra
      cases hpk : wl.eth_hot_key ext.data.validator_addr ext.data.signing_epoch with
      | none => rw [hpk] at hcontra; simp at hcontra
      | some pk =>
        rw [hpk] at hcontra
        by_cases hv : verify pk ext.data ext.sig = true
        · simp [hv] at hcontra
        · simp [Bool.not_eq_true] at hv
          simp [hv] at hcontra
    · intro hcontra
      omega
  · rw [if_pos (by omega)]
    constructor
    · intro _
      omega
    · intro _
      rfl

/-- Concrete storage for the C3 witness: one consensus validator with
power 7 at epoch 1. -/
def wlC3 : WlStorage :=
  { last_block := some 10
    valset_upd_seen := fun _ => false
    consensus_eth_addresses := fun e =>
      if e = 1 then [(⟨1, 2⟩, 5, 7)] else []
    eth_hot_key := fun _ _ => some 0 }

/-- Concrete extension for the C3 witness: the correct entry plus one
fabricated EthAddrBook entry. -/
def extC3 : SignedVext :=
  { data :=
      { voting_powers := [(⟨1, 2⟩, 7), (⟨3, 4⟩, 9)]
        validator_addr := 5
        signing_epoch := 0 }
    sig := 0 }

/-- Witness for C3: the concrete case of the claim — a snapshot of one
validator with power 7, an extension supplying that entry plus one
fabricated entry — is rejected with ExtraValidatorsInExtension. -/
theorem c3_witness :
    validate_valset_upd_vext (fun _ _ _ => true) wlC3 extC3 0 =
      .error .ExtraValidatorsInExtension :=
  (c3_extra_validators_iff (fun _ _ _ => true) wlC3 extC3 0
    rfl (by decide) rfl
    (by intro b a p hmem
        simp [wlC3, extC3] at hmem
        obtain ⟨h1, h2, h3⟩ := hmem
        subst h1; subst h2; subst h3
        rfl)
    (by simp [wlC3, extC3])).2.mpr (by simp [wlC3, extC3])

/-! ## Claim C7 -/

/-- Claim C7: the validation checks run in the fixed short-circuit order
genesis, epoch, proof-availability, voting-powers, public-key lookup,
signature verification.  In particular an extension whose signing_epoch
exceeds last_epoch on a non-genesis ledger is rejected with
UnexpectedEpoch regardless of the signature oracle — no signature
verification is performed. -/
theorem c7_short_circuit_order (verify1 verify2 : Nat → Vext → Nat → Bool)
    (wl : WlStorage) (ext : SignedVext) (last_epoch : Nat) :
    (wl.last_block = none →
      validate_valset_upd_vext verify1 wl ext last_epoch =
        .error .UnexpectedBlockHeight) ∧
    (wl.last_block.isNone = false → ext.data.signing_epoch > last_epoch →
      validate_valset_upd_vext verify1 wl ext last_epoch =
        .error .UnexpectedEpoch ∧
      validate_valset_upd_vext verify1 wl ext last_epoch =
        validate_valset_upd_vext verify2 wl ext last_epoch) ∧
    (wl.last_block.isNone = false → ¬ ext.data.signing_epoch > last_epoch →
      wl.valset_upd_seen (ext.data.signing_epoch + 1) = true →
      validate_valset_upd_vext verify1 wl ext last_epoch =
        .error .ValsetUpdProofAvailable) ∧
    (∀ er, wl.last_block.isNone = false → ¬ ext.data.signing_epoch > last_epoch →
      wl.valset_upd_seen (ext.data.signing_epoch + 1) = false →
      checkVotingPowersAux ext.data.voting_powers
        (wl.consensus_eth_addresses (ext.data.signing_epoch + 1)) 0 =
        .error er →
      validate_valset_upd_vext verify1 wl ext last_epoch = .error er) ∧
    (∀ n, wl.last_block.isNone = false → ¬ ext.data.signing_epoch > last_epoch →
      wl.valset_upd_seen (ext.data.signing_epoch + 1) = false →
      checkVotingPowersAux ext.data.voting_powers
        (wl.consensus_eth_addresses (ext.data.signing_epoch + 1)) 0 = .ok n →
      n ≠ ext.data.voting_powers.length →
      validate_valset_upd_vext verify1 wl ext last_epoch =
        .error .ExtraValidatorsInExtension) ∧
    (∀ n, wl.last_block.isNone = false → ¬ ext.data.signing_epoch > last_epoch →
      wl.valset_upd_seen (ext.data.signing_epoch + 1) = false →
      checkVotingPowersAux ext.data.voting_powers
        (wl.consensus_eth_addresses (ext.data.signing_epoch + 1)) 0 = .ok n →
      n = ext.data.voting_powers.length →
      wl.eth_hot_key ext.data.validator_addr ext.data.signing_epoch = none →
      validate_valset_upd_vext verify1 wl ext last_epoch =
        .error .PubKeyNotInStorage) ∧
    (∀ n pk, wl.last_block.isNone = false → ¬ ext.data.signing_epoch > last_epoch →
      wl.valset_upd_seen (ext.data.signing_epoch + 1) = false →
      checkVotingPowersAux ext.data.voting_powers
        (wl.consensus_eth_addresses (ext.data.signing_epoch + 1)) 0 = .ok n →
      n = ext.data.voting_powers.length →
      wl.eth_hot_key ext.data.validator_addr ext.data.signing_epoch = some pk →
      validate_valset_upd_vext verify1 wl ext last_epoch =
        (if verify1 pk ext.data ext.sig then .ok () else .error .VerifySigFailed)) := by
  refine ⟨?_, ?_, ?_, ?_, ?_, ?_, ?_⟩
  · intro h
    simp [validate_valset_upd_vext, h]
  · intro hb he
    constructor <;> simp [validate_valset_upd_vext, hb, he]
  · intro hb he hseen
    simp [validate_valset_upd_vext, hb, he, hseen]
  · intro er hb he hseen hch
    simp [validate_valset_upd_vext, hb, he, hseen, hch]
  · intro n hb he hseen hch hn
    simp [validate_valset_upd_vext, hb, he, hseen, hch, hn]
  · intro n hb he hseen hch hn hpk
    simp [validate_valset_upd_vext, hb, he, hseen, hch, hn, hpk]
  · intro n pk hb he hseen hch hn hpk
    simp [validate_valset_upd_vext, hb, he, hseen, hch, hn, hpk]

/-- Concrete storage for the C7 witness: a non-genesis ledger. -/
def wlC7 : WlStorage :=
  { last_block := some 4
    valset_upd_seen := fun _ => false
    consensus_eth_addresses := fun _ => []
    eth_hot_key := fun _ _ => some 0 }

/-- Concrete extension for the C7 witness: signing_epoch 5, ahead of
last_epoch 3. -/
def extC7 : SignedVext :=
  { data :=
      { voting_powers := []
        validator_addr := 5
        signing_epoch := 5 }
    sig := 0 }

/-- Witness for C7: a future-epoch extension is rejected with
UnexpectedEpoch, and the result is the same under two signature oracles
that disagree everywhere — no signature verification happened. -/
theorem c7_witness :
    validate_valset_upd_vext (fun _ _ _ => true) wlC7 extC7 3 =
      .error .UnexpectedEpoch ∧
    validate_valset_upd_vext (fun _ _ _ => true) wlC7 extC7 3 =
      validate_valset_upd_vext (fun _ _ _ => false) wlC7 extC7 3 :=
  (c7_short_circuit_order (fun _ _ _ => true) (fun _ _ _ => false)
    wlC7 extC7 3).2.1 rfl (by decide)

/-! ## Claim C9 -/

/-- Claim C9: validate_valset_upd_vext is a pure, deterministic function
of its inputs: with the same signature oracle, any two storages that
agree on the data the function reads (the genesis flag, the
proof-seen marker at signing_epoch.next(), the consensus validator
snapshot at signing_epoch.next(), and the hot key of the signer at
signing_epoch) yield the identical Result for the same extension and
last_epoch; the embedding performs no storage writes — the storage is
consumed read-only. -/
theorem c9_pure_deterministic (verify : Nat → Vext → Nat → Bool)
    (s1 s2 : WlStorage) (ext : SignedVext) (last_epoch : Nat)
    (h1 : s1.last_block.isNone = s2.last_block.isNone)
    (h2 : s1.valset_upd_seen (ext.data.signing_epoch + 1) =
      s2.valset_upd_seen (ext.data.signing_epoch + 1))
    (h3 : s1.consensus_eth_addresses (ext.data.signing_epoch + 1) =
      s2.consensus_eth_addresses (ext.data.signing_epoch + 1))
    (h4 : s1.eth_hot_key ext.data.validator_addr ext.data.signing_epoch =
      s2.eth_hot_key ext.data.validator_addr ext.data.signing_epoch) :
    validate_valset_upd_vext verify s1 ext last_epoch =
      validate_valset_upd_vext verify s2 ext last_epoch := by
  simp only [validate_valset_upd_vext, h1, h2, h3, h4]

/-- Concrete storages for the C9 witness: they differ in the snapshot of
an epoch the call never reads (epoch 99) and in the hot key of another
validator, but agree on everything the call reads. -/
def wlC9a : WlStorage :=
  { last_block := some 2
    valset_upd_seen := fun _ => false
    consensus_eth_addresses := fun _ => []
    eth_hot_key := fun v _ => if v = 5 then some 0 else none }

/-- Second concrete storage for the C9 witness. -/
def wlC9b : WlStorage :=
  { last_block := some 3
    valset_upd_seen := fun e => if e = 0 then true else false
    consensus_eth_addresses := fun e =>
      if e = 99 then [(⟨1, 1⟩, 1, 1)] else []
    eth_hot_key := fun v _ => if v = 5 then some 0 else some 1 }

/-- Concrete extension for the C9 witness. -/
def extC9 : SignedVext :=
  { data :=
      { voting_powers := []
        validator_addr := 5
        signing_epoch := 1 }
    sig := 0 }

/-- Witness for C9 at concrete inputs. -/
theorem c9_witness :
    validate_valset_upd_vext (fun _ _ _ => true) wlC9a extC9 1 =
      validate_valset_upd_vext (fun _ _ _ => true) wlC9b extC9 1 :=
  c9_pure_deterministic (fun _ _ _ => true) wlC9a wlC9b extC9 1
    rfl rfl (by decide) rfl

end Spec2Proof
